import Mathlib

/-!
Verification of the eval-run + labeling pipeline of the
rag-domain-knowledge-assistant repository (scripts/eval_run.py and
scripts/eval_label.py), over a shallow embedding of the two scripts.

Records are JSON objects (one per line of a record log), embedded as
association lists of string keys to JSON-like values; Python `dict.get`,
`dict` assignment and truthiness are embedded explicitly.  Interactive
operator input is embedded as a list of input strings consumed in order;
a prompt that never receives a valid entry (exhausted input) is `none`.
A raised exception aborting a read is embedded as an `Option`-valued
result being `none`.
-/

set_option autoImplicit false

namespace RagEval

/-- JSON-like values as stored in the eval-run record logs
(`eval_run.py` / `eval_label.py` serialize records with
`json.dumps` / `json.loads`). -/
inductive Val : Type where
  | null : Val
  | str : String → Val
  | int : Int → Val
  | arr : List Val → Val
  | obj : List (String × Val) → Val

mutual

/-- Structural equality of JSON values (Python `==` on the decoded
values, used for dict-key comparison). -/
def Val.beq : Val → Val → Bool
  | .null, .null => true
  | .str a, .str b => a == b
  | .int a, .int b => a == b
  | .arr a, .arr b => Val.beqL a b
  | .obj a, .obj b => Val.beqO a b
  | _, _ => false

/-- Elementwise `Val.beq` on JSON arrays. -/
def Val.beqL : List Val → List Val → Bool
  | [], [] => true
  | a :: as, b :: bs => Val.beq a b && Val.beqL as bs
  | _, _ => false

/-- Elementwise key/value `Val.beq` on JSON objects. -/
def Val.beqO : List (String × Val) → List (String × Val) → Bool
  | [], [] => true
  | (k, a) :: as, (l, b) :: bs => k == l && Val.beq a b && Val.beqO as bs
  | _, _ => false

end

/-- A record: a JSON object, i.e. a Python dict with string keys
(association list, first occurrence of a key wins on lookup). -/
abbrev Rec : Type := List (String × Val)

/-- Python truthiness of a JSON value (`None`, `""`, `0`, `[]`, `\x7b\x7d`
are falsy). -/
def Val.falsy : Val → Bool
  | .null => true
  | .str s => s == ""
  | .int n => n == 0
  | .arr l => l.isEmpty
  | .obj o => o.isEmpty

/-- `r.get(k)` / `r.get(k, None)`: first value bound to `k`, if any. -/
def Rec.get : Rec → String → Option Val
  | [], _ => none
  | (k, v) :: rest, key => if k = key then some v else Rec.get rest key

/-- `r.get(k, d)`: lookup with a default for an absent key. -/
def Rec.getD (r : Rec) (key : String) (d : Val) : Val :=
  (Rec.get r key).getD d

/-- Python dict assignment `r[k] = v`: replace the value at an existing
key in place, otherwise append the new binding at the end. -/
def Rec.set : Rec → String → Val → Rec
  | [], k, v => [(k, v)]
  | (k0, v0) :: rest, k, v =>
    if k0 = k then (k, v) :: rest else (k0, v0) :: Rec.set rest k v

/-- The keys of a record, in order. -/
def Rec.keys (r : Rec) : List String := r.map (fun p => p.1)

theorem Rec.get_set (r : Rec) (k key : String) (v : Val) :
    Rec.get (Rec.set r k v) key = if k = key then some v else Rec.get r key := by
  induction r with
  | nil =>
    simp only [Rec.set, Rec.get]
  | cons hd tl ih =>
    obtain ⟨k0, v0⟩ := hd
    by_cases h0 : k0 = k
    · subst h0
      by_cases h1 : k0 = key <;> simp [Rec.set, Rec.get, h1]
    · simp only [Rec.set, if_neg h0, Rec.get]
      by_cases h1 : k0 = key
      · subst h1
        have hk : ¬ k = k0 := fun h => h0 h.symm
        simp [if_neg hk, if_pos rfl]
      · simp [if_neg h1, ih]

theorem Rec.get_set_same (r : Rec) (k : String) (v : Val) :
    Rec.get (Rec.set r k v) k = some v := by
  simp [Rec.get_set]

theorem Rec.get_set_ne (r : Rec) (k key : String) (v : Val) (h : k ≠ key) :
    Rec.get (Rec.set r k v) key = Rec.get r key := by
  simp [Rec.get_set, h]

/-! ## Python string primitives

The source leans on `str.strip()`, `str.lower()`, `str.replace`, `len`
and slicing.  They are embedded over the character list of the string
(ASCII whitespace and ASCII case, which covers every literal the two
scripts compare against). -/

/-- Python `s.strip()`: drop whitespace from both ends. -/
def pyStrip (s : String) : String :=
  String.mk
    (((s.data.dropWhile Char.isWhitespace).reverse.dropWhile
        Char.isWhitespace).reverse)

/-- Python `s.lower()`. -/
def pyLower (s : String) : String :=
  String.mk (s.data.map Char.toLower)

/-- Python `s.replace("\n", " ")`. -/
def replaceNl (s : String) : String :=
  String.mk (s.data.map (fun c => if c == '\n' then ' ' else c))

/-- Python `len(s)`, in characters. -/
def pyLen (s : String) : Nat := s.data.length

/-- Python `s[:n]`. -/
def pyTake (s : String) (n : Nat) : String := String.mk (s.data.take n)

/-! ## eval_label.py: label vocabularies (lines 61-72) -/

def ANSWER_LABELS : List String := ["correct", "partial", "wrong", "oos"]

def RETRIEVAL_LABELS : List String := ["ok", "bad"]

def FAILURE_BUCKETS : List String :=
  ["retrieval_miss", "chunking_issue", "grounding_failure",
   "instruction_following", "ambiguity_handling", "formatting", "other"]

/-! ## eval_label.py: the already-labeled skip test (line 227)

`if r.get("answer_label") not in (None, "", "unlabeled") and
    r.get("retrieval_label") not in ("None", "unlabeled"): continue`

Note the source compares `r.get("retrieval_label")` against the *string*
`"None"` (not the value `None`), and that tuple has no empty string; an
absent or empty `retrieval_label` therefore passes the second test. -/

/-- The record is skipped without a prompt (source line 227). -/
def skipsRecord (r : Rec) : Bool :=
  (match Rec.get r "answer_label" with
   | none => false
   | some (Val.str s) => !(s == "" || s == "unlabeled")
   | some _ => true) &&
  (match Rec.get r "retrieval_label" with
   | none => true
   | some (Val.str s) => !(s == "None" || s == "unlabeled")
   | some _ => true)

/-- Per the spec's words: a label value is a placeholder when it is
absent, empty, or equal to `"unlabeled"`. -/
def placeholderPerSpec : Option Val → Bool
  | none => true
  | some (Val.str s) => s == "" || s == "unlabeled"
  | some _ => false

/-- Per the spec's words: a record is labeled iff both `answer_label` and
`retrieval_label` are present and not placeholder values. -/
def labeledPerSpec (r : Rec) : Bool :=
  !(placeholderPerSpec (Rec.get r "answer_label")) &&
  !(placeholderPerSpec (Rec.get r "retrieval_label"))

/-! ## eval_label.py: interactive prompting (lines 114-156)

Operator input is a list of strings consumed in order; `none` means the
prompt never received a valid entry (the operator input was exhausted
while the prompt kept re-asking). -/

/-- `_prompt_choice` (lines 114-140): repeat until the (stripped,
lowercased) input is one of `choices`.  The `dflt` argument only
decorates the printed prompt suffix in the source (line 137); no branch
of the input loop consults it. -/
def promptChoice (choices : List String) (dflt : Option String) :
    List String → Option (String × List String)
  | [] => none
  | x :: rest =>
    let y := pyLower (pyStrip x)
    if choices.contains y then some (y, rest)
    else promptChoice choices dflt rest

/-- `_prompt_free` (lines 142-156): one input, stripped. -/
def promptFree : List String → Option (String × List String)
  | [] => none
  | x :: rest => some (pyStrip x, rest)

/-! ## eval_label.py: labeling one record (lines 251-255) -/

/-- The five fields written by a labeling pass. -/
def labelFields : List String :=
  ["answer_label", "retrieval_label", "failure_bucket", "label_notes",
   "labeled_at"]

/-- Lines 251-255: set the five label fields on the in-memory record
before appending it to the output log; `ts` stands for the
`datetime.now().isoformat()` stamp. -/
def labelRecord (r : Rec) (ans ret bucket notes ts : String) : Rec :=
  Rec.set
    (Rec.set
      (Rec.set
        (Rec.set
          (Rec.set r "answer_label" (Val.str ans))
          "retrieval_label" (Val.str ret))
        "failure_bucket" (Val.str bucket))
      "label_notes" (Val.str notes))
    "labeled_at" (Val.str ts)

/-! ## eval_label.py: the main labeling loop (lines 218-260)

`labeled = 0; for i in range(args.start, len(rows)): if labeled >
args.limit: break; ...`.  The function returns the list of records
appended to the output log, in append order.  If the operator input runs
out mid-record, the in-progress record is not appended (the source
appends only after all four prompts succeed) and the session ends. -/

def sessionLoop (limit : Int) (ts : String) :
    List Rec → Int → List String → List Rec
  | [], _, _ => []
  | r :: rest, labeled, inputs =>
    if labeled > limit then []
    else if skipsRecord r then sessionLoop limit ts rest labeled inputs
    else
      match promptChoice ANSWER_LABELS (some "partial") inputs with
      | none => []
      | some (ans, in1) =>
        match promptChoice RETRIEVAL_LABELS (some "ok") in1 with
        | none => []
        | some (ret, in2) =>
          match promptChoice FAILURE_BUCKETS (some "other") in2 with
          | none => []
          | some (bucket, in3) =>
            match promptFree in3 with
            | none => []
            | some (notes, in4) =>
              labelRecord r ans ret bucket notes ts ::
                sessionLoop limit ts rest (labeled + 1) in4

/-- One labeling session over the parsed input rows: iterate from the
0-based `start` offset with the `--limit` argument, appending labeled
records to the output log (lines 218-260). -/
def runSession (rows : List Rec) (start : Nat) (limit : Int)
    (inputs : List String) (ts : String) : List Rec :=
  sessionLoop limit ts (rows.drop start) 0 inputs

/-! ## eval_label.py: reading a record log (lines 202-203, 266)

`rows = [json.loads(x) for x in lines if x.strip()]`: blank lines are
filtered out before parsing; `json.loads` on any remaining line that is
not valid JSON raises `JSONDecodeError`, which nothing catches, so the
whole read aborts.  `loads` stands for `json.loads`, with `none` where
the library call would raise. -/

/-- The list comprehension over the kept lines: all-or-nothing, a single
failing line aborts the whole read (`none`). -/
def parseAll (loads : String → Option Rec) : List String → Option (List Rec)
  | [] => some []
  | x :: rest =>
    match loads x with
    | none => none
    | some r =>
      match parseAll loads rest with
      | none => none
      | some rs => some (r :: rs)

/-- Lines 202-203 / 266: split the file into lines, keep those that are
non-blank after stripping, and parse each. -/
def readRows (loads : String → Option Rec) (ls : List String) :
    Option (List Rec) :=
  parseAll loads (ls.filter (fun x => !(pyStrip x == "")))

/-- Concrete stand-in for `json.loads` at the library boundary, used only
to instantiate theorems at explicit inputs: a line decodes iff it is
brace-delimited, to a one-field record holding the raw line; a truncated
line (no closing brace) fails to decode, as `json.loads` raises there. -/
def toyLoads (s : String) : Option Rec :=
  if s.data.head? == some (Char.ofNat 123) &&
      s.data.getLast? == some (Char.ofNat 125) then
    some [("raw", Val.str s)]
  else none

/-! ## eval_label.py: the material shown to the operator (lines 230-244) -/

/-- `_preview` (lines 95-112): `(s or "").strip().replace("\n", " ")`,
truncated to `n` characters with a `"..."` tail.  The argument is the
looked-up field value, a string or JSON null (`None`, which `s or ""`
maps to the empty string); other shapes would raise in the source and
are not reachable from the fields previewed. -/
def preview (v : Val) (n : Nat) : String :=
  let s :=
    match v with
    | Val.str s => s
    | _ => ""
  let s := replaceNl (pyStrip s)
  if pyLen s ≤ n then s else pyTake s n ++ "..."

/-- Rendering of a JSON value interpolated into an output f-string
(Python `str()`).  The fields interpolated by the labeling UI are
strings, numbers or null; container rendering is abbreviated and unused
by any theorem below. -/
def pyDisplay : Val → String
  | Val.str s => s
  | Val.int n => toString n
  | Val.null => "None"
  | Val.arr _ => "[...]"
  | Val.obj _ => "\x7b...\x7d"

/-- Iterating a decoded JSON value as a list (line 241); `or []` already
maps falsy values to the empty list. -/
def listOf : Val → List Val
  | Val.arr l => l
  | _ => []

/-- Reading a decoded JSON value as an object (the `it.get(...)` calls
of lines 242-243 assume each retrieved item is a dict). -/
def objOf : Val → Rec
  | Val.obj o => o
  | _ => []

/-- `r.get("retrieved", []) or []` (line 240). -/
def retrievedOf (r : Rec) : List Val :=
  let v := Rec.getD r "retrieved" (Val.arr [])
  if v.falsy then [] else listOf v

/-- The lines the session prints for one record before label collection
(source lines 230-244), in print order: the `eval_id`/`top_k` header, the
query, the optional `Expected` block, the `Answer` block, and up to three
retrieved items.  Two source slips are embedded faithfully: the `Answer`
block previews `r.get("expected_answer", "")` (line 238), not the
record's `answer` field; and the snippet expression
`it.get('snippet'<'')` (line 243) evaluates `'snippet' < ''` to `False`
and `it.get(False)` to `None`, so the snippet preview is the preview of
null. -/
def displayedMaterial (r : Rec) : List String :=
  ["eval_id=" ++ pyDisplay (Rec.getD r "eval_id" (Val.str "")) ++
     " top_k=" ++ pyDisplay (Rec.getD r "top_k" (Val.str "")),
   "Query: " ++ pyDisplay (Rec.getD r "query" (Val.str ""))] ++
  (match Rec.get r "expected_answer" with
   | none => []
   | some Val.null => []
   | some v => ["Expected: ", preview v 600]) ++
  ["Answer:", preview (Rec.getD r "expected_answer" (Val.str "")) 900] ++
  (((retrievedOf r).take 3).map (fun it =>
    ["    - score=" ++ pyDisplay (Rec.getD (objOf it) "score" Val.null) ++
       " source=" ++ pyDisplay (Rec.getD (objOf it) "source" Val.null),
     "      " ++ preview Val.null 220])).flatten

/-! ## eval_label.py: the closing summary (lines 266-272) -/

/-- `v = rr.get(key, "unlabeled") or "unlabeled"` (line 270): the
observed value for one record, defaulting to `"unlabeled"` when the field
is absent or falsy. -/
def observeVal (rr : Rec) (key : String) : Val :=
  let v := Rec.getD rr key (Val.str "unlabeled")
  if v.falsy then Val.str "unlabeled" else v

/-- `c[v] = c.get(v, 0) + 1` (line 271): bump the count of one observed
value in the counter dict. -/
def bumpCount : List (Val × Nat) → Val → List (Val × Nat)
  | [], v => [(v, 1)]
  | (k, n) :: rest, v =>
    if Val.beq k v then (k, n + 1) :: rest else (k, n) :: bumpCount rest v

/-- `_count(key)` (lines 267-272): frequency of observed values of `key`
over the rows. -/
def countBy (rows : List Rec) (key : String) : List (Val × Nat) :=
  rows.foldl (fun c rr => bumpCount c (observeVal rr key)) []

/-- Total of the counts in a counter dict. -/
def sumCounts (c : List (Val × Nat)) : Nat :=
  (c.map (fun p => p.2)).sum

/-! ## eval_run.py: shaping one eval record (lines 145-199) -/

/-- `enumerate(sources, start=1)` (line 173). -/
def enumFrom : Nat → List Rec → List (Nat × Rec)
  | _, [] => []
  | n, s :: rest => (n, s) :: enumFrom (n + 1) rest

/-- Lines 174-181: one normalized retrieved item from its rank and
source dict: `source` (default `"unknown"`), `score` (default null) and
`snippet` (default empty). -/
def logItem (p : Nat × Rec) : Rec :=
  [("rank", Val.int (Int.ofNat p.1)),
   ("source", Rec.getD p.2 "source" (Val.str "unknown")),
   ("score", Rec.getD p.2 "score" Val.null),
   ("snippet", Rec.getD p.2 "snippet" (Val.str ""))]

/-- Lines 172-181: normalize retrieved items for logging, re-ranking
from 1. -/
def retrievedForLog (sources : List Rec) : List Rec :=
  (enumFrom 1 sources).map logItem

/-- Lines 160-197, one eval item: shape the sources
(`result.get("sources", []) or []`) and answer
(`result.get("answer", "")`) from the `answer()` result and build the
record that line 199 writes.  `latency` stands for the measured
wall-clock value, `ts` for the per-item timestamp; the elements of the
`sources` list are the decoded JSON objects (a non-object element would
raise in the source). -/
def buildRecord (runDate runId evalId : String) (idx : Nat) (query : String)
    (ts : String) (topK : Nat) (latency : Val) (expectedAnswer : String)
    (result : Rec) : Rec :=
  let sourcesVal := Rec.getD result "sources" (Val.arr [])
  let sources : List Rec :=
    if sourcesVal.falsy then [] else (listOf sourcesVal).map objOf
  let answerText := Rec.getD result "answer" (Val.str "")
  [("run_date", Val.str runDate),
   ("run_id", Val.str runId),
   ("eval_id", Val.str evalId),
   ("index", Val.int (Int.ofNat idx)),
   ("query", Val.str query),
   ("timestamp", Val.str ts),
   ("top_k", Val.int (Int.ofNat topK)),
   ("latency_s", latency),
   ("answer", answerText),
   ("expected_answer", Val.str expectedAnswer),
   ("retrieved", Val.arr ((retrievedForLog sources).map Val.obj)),
   ("answer_label", Val.str "unlabeled"),
   ("retrieval_label", Val.str "unlabeled")]

/-! ## eval_run.py: creating the run log (line 145) -/

/-- A file-system fragment: paths to file contents. -/
abbrev FS : Type := String → Option String

/-- Line 145, `log_path.open("w", encoding="utf-8")`: opening a path in
mode `"w"` creates or truncates it unconditionally — there is no
existence check and an existing file at the path raises nothing; its
contents are discarded. -/
def openWrite (fs : FS) (path : String) : FS :=
  fun p => if p = path then some "" else fs p

/-! ## Helper lemmas -/

theorem labelRecord_get_ne (r : Rec) (a b c n ts : String) (k : String)
    (h : k ∉ labelFields) :
    Rec.get (labelRecord r a b c n ts) k = Rec.get r k := by
  simp only [labelFields, List.mem_cons, List.not_mem_nil, or_false,
    not_or] at h
  obtain ⟨h1, h2, h3, h4, h5⟩ := h
  rw [labelRecord,
    Rec.get_set_ne _ _ _ _ (fun hh => h5 hh.symm),
    Rec.get_set_ne _ _ _ _ (fun hh => h4 hh.symm),
    Rec.get_set_ne _ _ _ _ (fun hh => h3 hh.symm),
    Rec.get_set_ne _ _ _ _ (fun hh => h2 hh.symm),
    Rec.get_set_ne _ _ _ _ (fun hh => h1 hh.symm)]

theorem sessionLoop_mem (limit : Int) (ts : String) :
    ∀ (rows : List Rec) (labeled : Int) (inputs : List String) (out : Rec),
      out ∈ sessionLoop limit ts rows labeled inputs →
      ∃ r, r ∈ rows ∧ ∃ a b c n, out = labelRecord r a b c n ts := by
  intro rows
  induction rows with
  | nil =>
    intro labeled inputs out h
    simp [sessionLoop] at h
  | cons r rest ih =>
    intro labeled inputs out h
    simp only [sessionLoop] at h
    split at h
    · simp at h
    · split at h
      · obtain ⟨r', hr', hrest⟩ := ih _ _ _ h
        exact ⟨r', List.mem_cons_of_mem _ hr', hrest⟩
      · split at h
        · simp at h
        · split at h
          · simp at h
          · split at h
            · simp at h
            · split at h
              · simp at h
              · rcases List.mem_cons.mp h with hout | hout
                · exact ⟨r, List.mem_cons_self r rest,
                    _, _, _, _, hout⟩
                · obtain ⟨r', hr', hrest⟩ := ih _ _ _ hout
                  exact ⟨r', List.mem_cons_of_mem _ hr', hrest⟩

theorem sumCounts_bump (c : List (Val × Nat)) (v : Val) :
    sumCounts (bumpCount c v) = sumCounts c + 1 := by
  induction c with
  | nil => simp [bumpCount, sumCounts]
  | cons hd tl ih =>
    obtain ⟨k, n⟩ := hd
    by_cases h : Val.beq k v <;>
      simp [bumpCount, h, sumCounts] at ih ⊢ <;> omega

theorem sumCounts_foldl (key : String) :
    ∀ (rows : List Rec) (c : List (Val × Nat)),
      sumCounts (rows.foldl (fun c rr => bumpCount c (observeVal rr key)) c)
        = sumCounts c + rows.length := by
  intro rows
  induction rows with
  | nil => intro c; simp
  | cons rr rest ih =>
    intro c
    simp only [List.foldl_cons, List.length_cons]
    rw [ih, sumCounts_bump]
    omega

theorem parseAll_all_some (loads : String → Option Rec) :
    ∀ (l : List String), (∀ x ∈ l, (loads x).isSome) →
      parseAll loads l = some (l.filterMap loads) := by
  intro l
  induction l with
  | nil => intro _; simp [parseAll]
  | cons x rest ih =>
    intro h
    have hx := h x (List.mem_cons_self x rest)
    obtain ⟨r, hr⟩ := Option.isSome_iff_exists.mp hx
    have hrest := ih (fun y hy => h y (List.mem_cons_of_mem _ hy))
    simp [parseAll, hr, hrest]

theorem parseAll_abort (loads : String → Option Rec) :
    ∀ (l : List String) (x : String), x ∈ l → loads x = none →
      parseAll loads l = none := by
  intro l
  induction l with
  | nil => intro x hx; simp at hx
  | cons y rest ih =>
    intro x hx hnone
    rcases List.mem_cons.mp hx with h | h
    · subst h; simp [parseAll, hnone]
    · cases hy : loads y with
      | none => simp [parseAll, hy]
      | some r => simp [parseAll, hy, ih x h hnone]

theorem enumFrom_length : ∀ (n : Nat) (l : List Rec),
    (enumFrom n l).length = l.length := by
  intro n l
  induction l generalizing n with
  | nil => simp [enumFrom]
  | cons s rest ih => simp [enumFrom, ih]

theorem retrievedForLog_ranks_aux :
    ∀ (l : List Rec) (n : Nat),
      ((enumFrom n l).map logItem).map (fun it => Rec.get it "rank")
        = (List.range' n l.length).map (fun m => some (Val.int (Int.ofNat m))) := by
  intro l
  induction l with
  | nil => intro n; simp [enumFrom]
  | cons s rest ih =>
    intro n
    simp [enumFrom, List.range'_succ, logItem, Rec.get, ih]

/-! ## Claim theorems -/

/-- C1: the spec says a record is skipped without a prompt iff both
`answer_label` and `retrieval_label` are present and not placeholders
(absent / empty / `"unlabeled"`).  The code's skip test (line 227)
compares `retrieval_label` against the string `"None"` instead of the
value `None` and omits the empty string, so a record whose
`retrieval_label` is empty (a placeholder, hence to be prompted for) is
silently skipped: the skip test accepts it, the spec's labeled test
rejects it, and a session over it appends nothing and consumes no
operator input even though valid label inputs are available. -/
theorem c1_skip_check_divergence :
    skipsRecord
        [("answer_label", Val.str "correct"),
         ("retrieval_label", Val.str "")] = true ∧
    labeledPerSpec
        [("answer_label", Val.str "correct"),
         ("retrieval_label", Val.str "")] = false ∧
    runSession
        [[("answer_label", Val.str "correct"),
          ("retrieval_label", Val.str "")]] 0 5
        ["correct", "ok", "other", ""] "T" = [] :=
  ⟨rfl, rfl, rfl⟩

/-- C2: the spec says a session transitions at most `limit` records to
labeled.  The loop's break test (line 223) is `labeled > args.limit`,
checked before each record, so the session labels `limit + 1` records
when enough promptable records remain: with `limit = 0` and one
unlabeled record, one record is labeled and appended. -/
theorem c2_limit_off_by_one :
    runSession [([] : Rec)] 0 0 ["correct", "ok", "other", "note"] "T"
      = [labelRecord [] "correct" "ok" "other" "note" "T"] ∧
    (runSession [([] : Rec), []] 0 1
        ["correct", "ok", "other", "", "wrong", "bad", "other", ""] "T").length
      = 2 :=
  ⟨rfl, rfl⟩

/-- C4: the spec says a closed-choice prompt returns its default on
empty operator input (`partial` / `ok` / `other`).  `_prompt_choice`
(lines 134-140) never consults its `default` argument: an empty input is
not in the choice list, so the prompt re-asks, and a later valid entry —
not the default — is returned. -/
theorem c4_default_never_returned :
    promptChoice ANSWER_LABELS (some "partial") [""] = none ∧
    promptChoice ANSWER_LABELS (some "partial") ["", "wrong"]
      = some ("wrong", []) ∧
    promptChoice RETRIEVAL_LABELS (some "ok") [""] = none ∧
    promptChoice FAILURE_BUCKETS (some "other") [""] = none :=
  ⟨rfl, rfl, rfl, rfl⟩

/-- C3 counterexample: a log of one valid line, one blank line and one
truncated line.  The claim says the read yields exactly the one parsed
record and never raises; the code (lines 202-203) only filters blank
lines, so `json.loads` on the truncated third line raises and the whole
read aborts (`none`) — even though a successfully parsed record was
available. -/
theorem c3_truncated_line_aborts_read :
    readRows toyLoads
        ["\x7b\"eval_id\": \"q1\"\x7d", "", "\x7b\"eval_id\""] = none ∧
    (["\x7b\"eval_id\": \"q1\"\x7d", "", "\x7b\"eval_id\""].filter
        (fun x => !(pyStrip x == ""))).filterMap toyLoads
      = [[("raw", Val.str "\x7b\"eval_id\": \"q1\"\x7d")]] :=
  ⟨rfl, rfl⟩

/-- C3 amended: reading a record log skips blank (whitespace-only) lines
and yields exactly the parsed records in file order when every remaining
line parses; but a non-blank line that fails to parse causes the read to
raise (abort), rather than being skipped. -/
theorem c3_read_blanks_skipped_malformed_aborts
    (loads : String → Option Rec) (ls : List String) :
    ((∀ x ∈ ls.filter (fun x => !(pyStrip x == "")), (loads x).isSome) →
      readRows loads ls
        = some ((ls.filter (fun x => !(pyStrip x == ""))).filterMap loads)) ∧
    (∀ x ∈ ls, pyStrip x ≠ "" → loads x = none → readRows loads ls = none) := by
  constructor
  · intro h
    exact parseAll_all_some loads _ h
  · intro x hx hblank hnone
    have hmem : x ∈ ls.filter (fun x => !(pyStrip x == "")) := by
      rw [List.mem_filter]
      exact ⟨hx, by simp [hblank]⟩
    exact parseAll_abort loads _ x hmem hnone

/-- C3 witness: the amended read behaviour at concrete logs — a log of
one valid and one blank line yields the parsed record; a log with a
malformed non-blank line aborts. -/
theorem c3_read_witness :
    readRows toyLoads ["\x7b\"a\"\x7d", "  "]
      = some [[("raw", Val.str "\x7b\"a\"\x7d")]] ∧
    readRows toyLoads ["\x7b\"a\"\x7d", "bad"] = none :=
  ⟨(c3_read_blanks_skipped_malformed_aborts toyLoads
      ["\x7b\"a\"\x7d", "  "]).1 (by decide),
   (c3_read_blanks_skipped_malformed_aborts toyLoads
      ["\x7b\"a\"\x7d", "bad"]).2 "bad" (by decide) (by decide) rfl⟩

/-- C5: every record a labeling session appends to the output log is an
input record with exactly the five label fields set (via the dict
assignments of lines 251-255); every other field reads back unchanged.
The input log itself is only ever read (line 202) — the session is a
pure function of the parsed input rows. -/
theorem c5_append_only_adds_label_fields (rows : List Rec) (start : Nat)
    (limit : Int) (inputs : List String) (ts : String) (out : Rec)
    (hout : out ∈ runSession rows start limit inputs ts) :
    ∃ r, r ∈ rows ∧ (∃ a b c n, out = labelRecord r a b c n ts) ∧
      ∀ k, k ∉ labelFields → Rec.get out k = Rec.get r k := by
  obtain ⟨r, hr, a, b, c, n, hout_eq⟩ :=
    sessionLoop_mem limit ts (rows.drop start) 0 inputs out hout
  refine ⟨r, List.drop_subset start rows hr, ⟨a, b, c, n, hout_eq⟩, ?_⟩
  intro k hk
  rw [hout_eq]
  exact labelRecord_get_ne r a b c n ts k hk

/-- C5 witness: a concrete session over one unlabeled record appends one
record whose non-label fields (here `eval_id`) match the input record. -/
theorem c5_append_witness :
    ∃ r, r ∈ [[("eval_id", Val.str "q1")]] ∧
      (∃ a b c n,
        labelRecord [("eval_id", Val.str "q1")] "correct" "ok" "other" "" "T"
          = labelRecord r a b c n "T") ∧
      ∀ k, k ∉ labelFields →
        Rec.get
          (labelRecord [("eval_id", Val.str "q1")] "correct" "ok" "other" "" "T")
          k = Rec.get r k :=
  c5_append_only_adds_label_fields
    [[("eval_id", Val.str "q1")]] 0 5 ["correct", "ok", "other", ""] "T"
    (labelRecord [("eval_id", Val.str "q1")] "correct" "ok" "other" "" "T")
    (List.mem_singleton.mpr rfl)

/-- C6: in every record the eval runner writes (lines 183-197), the
`retrieved` field is the normalized source list of lines 172-181, whose
`rank` values are exactly `1, 2, ..., len(retrieved)` in order,
whatever the `answer()` result's sources were. -/
theorem c6_ranks_exactly_one_to_len (rd ri ei : String) (idx : Nat)
    (q ts : String) (tk : Nat) (lat : Val) (ea : String) (result : Rec) :
    ∃ items : List Rec,
      Rec.get (buildRecord rd ri ei idx q ts tk lat ea result) "retrieved"
        = some (Val.arr (items.map Val.obj)) ∧
      items.map (fun it => Rec.get it "rank")
        = (List.range' 1 items.length).map
            (fun m => some (Val.int (Int.ofNat m))) := by
  refine ⟨retrievedForLog
    (if (Rec.getD result "sources" (Val.arr [])).falsy then []
     else (listOf (Rec.getD result "sources" (Val.arr []))).map objOf),
    rfl, ?_⟩
  rw [retrievedForLog, retrievedForLog_ranks_aux, List.length_map,
    enumFrom_length]

/-- C7: the summary counter `_count` (lines 267-272) reads the field
from each record, observing `"unlabeled"` when the field is absent or
empty, and the counts it returns total exactly the number of input
records. -/
theorem c7_count_conservation (rows : List Rec) (key : String) :
    sumCounts (countBy rows key) = rows.length ∧
    (∀ rr : Rec, Rec.get rr key = none →
      observeVal rr key = Val.str "unlabeled") ∧
    (∀ rr : Rec, Rec.get rr key = some (Val.str "") →
      observeVal rr key = Val.str "unlabeled") := by
  refine ⟨?_, ?_, ?_⟩
  · rw [countBy, sumCounts_foldl]
    simp [sumCounts]
  · intro rr h
    simp [observeVal, Rec.getD, h, Val.falsy]
  · intro rr h
    simp [observeVal, Rec.getD, h, Val.falsy]

/-- C7 witness: the counter at a concrete three-record log (one
`correct`, one absent field, one empty field) totals three, and the
absent/empty observations default to `"unlabeled"`. -/
theorem c7_count_witness :
    sumCounts (countBy
        [[("answer_label", Val.str "correct")], [],
         [("answer_label", Val.str "")]] "answer_label") = 3 ∧
    observeVal [] "answer_label" = Val.str "unlabeled" ∧
    observeVal [("answer_label", Val.str "")] "answer_label"
      = Val.str "unlabeled" :=
  ⟨(c7_count_conservation
      [[("answer_label", Val.str "correct")], [],
       [("answer_label", Val.str "")]] "answer_label").1,
   (c7_count_conservation [] "answer_label").2.1 [] rfl,
   (c7_count_conservation [] "answer_label").2.2
     [("answer_label", Val.str "")] rfl⟩

/-- C8: the claim says the material presented before label collection
includes the record's generated answer (its `answer` field).  Line 238
previews `r.get("expected_answer", "")` under the `Answer:` heading, so
the expected answer is shown twice and the `answer` field is never read:
changing it leaves the displayed material unchanged, and at a concrete
record whose generated answer is `"MODEL"` the displayed lines show
`"GOLD"` under both headings and `"MODEL"` nowhere. -/
theorem c8_generated_answer_never_displayed :
    (∀ (r : Rec) (v : Val),
      displayedMaterial (Rec.set r "answer" v) = displayedMaterial r) ∧
    displayedMaterial
        [("eval_id", Val.str "q1"), ("query", Val.str "Q?"),
         ("expected_answer", Val.str "GOLD"), ("answer", Val.str "MODEL"),
         ("retrieved", Val.arr [])]
      = ["eval_id=q1 top_k=", "Query: Q?", "Expected: ", "GOLD",
         "Answer:", "GOLD"] ∧
    Rec.get
        [("eval_id", Val.str "q1"), ("query", Val.str "Q?"),
         ("expected_answer", Val.str "GOLD"), ("answer", Val.str "MODEL"),
         ("retrieved", Val.arr [])] "answer" = some (Val.str "MODEL") ∧
    "MODEL" ∉ displayedMaterial
        [("eval_id", Val.str "q1"), ("query", Val.str "Q?"),
         ("expected_answer", Val.str "GOLD"), ("answer", Val.str "MODEL"),
         ("retrieved", Val.arr [])] := by
  refine ⟨?_, rfl, rfl, by decide⟩
  intro r v
  simp only [displayedMaterial, Rec.getD, retrievedOf,
    Rec.get_set_ne r "answer" "eval_id" v (by decide),
    Rec.get_set_ne r "answer" "top_k" v (by decide),
    Rec.get_set_ne r "answer" "query" v (by decide),
    Rec.get_set_ne r "answer" "expected_answer" v (by decide),
    Rec.get_set_ne r "answer" "retrieved" v (by decide)]

/-- C9 counterexample: creating the run log at a path that already holds
content.  The claim says this fails with `AlreadyExists` and leaves the
file intact when overwrite was not requested; line 145 opens the path in
mode `"w"`, which succeeds unconditionally (its result type has no
failure case) and truncates the existing contents to empty. -/
theorem c9_open_w_truncates_existing :
    (fun p => if p = "run.jsonl" then some "old run data" else none : FS)
        "run.jsonl" = some "old run data" ∧
    openWrite (fun p => if p = "run.jsonl" then some "old run data" else none)
        "run.jsonl" "run.jsonl" = some "" :=
  ⟨rfl, rfl⟩

/-- C9 amended: creating the run log opens the path in truncating write
mode: whether or not a file exists there, the path's contents become
empty and no failure occurs; every other path is unchanged.  No
`AlreadyExists` check is performed. -/
theorem c9_open_w_always_truncates (fs : FS) (path : String) :
    openWrite fs path path = some "" ∧
    ∀ q, q ≠ path → openWrite fs path q = fs q := by
  constructor
  · simp [openWrite]
  · intro q hq
    simp [openWrite, hq]

/-- C9 witness: the truncating-open behaviour at a concrete file system
with no file at the path — the log path becomes empty and another path
stays absent. -/
theorem c9_open_w_witness :
    openWrite (fun _ => none) "run.jsonl" "run.jsonl" = some "" ∧
    openWrite (fun _ => none) "run.jsonl" "other.jsonl" = none :=
  ⟨(c9_open_w_always_truncates (fun _ => none) "run.jsonl").1,
   (c9_open_w_always_truncates (fun _ => none) "run.jsonl").2
     "other.jsonl" (by decide)⟩

/-- C10 counterexample: an `answer()` result whose `answer` field is
absent but whose `sources` field holds one source.  The claim's
antecedent holds (the answer field is absent), yet the written record's
`retrieved` is the one normalized source, not the empty sequence the
claim asserts: the disjunctive antecedent overreaches. -/
theorem c10_answer_absent_sources_present :
    Rec.get [("sources", Val.arr [Val.obj [("source", Val.str "doc1")]])]
        "answer" = none ∧
    Rec.get (buildRecord "2026-01-01" "rid" "q1" 0 "Q" "T" 5 Val.null "E"
        [("sources", Val.arr [Val.obj [("source", Val.str "doc1")]])])
        "answer" = some (Val.str "") ∧
    Rec.get (buildRecord "2026-01-01" "rid" "q1" 0 "Q" "T" 5 Val.null "E"
        [("sources", Val.arr [Val.obj [("source", Val.str "doc1")]])])
        "retrieved"
      = some (Val.arr [Val.obj
          [("rank", Val.int 1), ("source", Val.str "doc1"),
           ("score", Val.null), ("snippet", Val.str "")]]) ∧
    (Val.arr [Val.obj
        [("rank", Val.int 1), ("source", Val.str "doc1"),
         ("score", Val.null), ("snippet", Val.str "")]]) ≠ Val.arr [] := by
  refine ⟨rfl, rfl, rfl, by simp⟩

/-- C10 amended: if the `answer()` result's `sources` field is absent or
null, the written record's `retrieved` is the empty sequence; if its
`answer` field is absent, the written record's `answer` is the empty
string; in every case the record is well-formed, carrying exactly the
thirteen eval-record fields, and the run continues (the shaping of
lines 160-197 is total). -/
theorem c10_missing_fields_defaults (rd ri ei : String) (idx : Nat)
    (q ts : String) (tk : Nat) (lat : Val) (ea : String) (result : Rec) :
    ((Rec.get result "sources" = none ∨
        Rec.get result "sources" = some Val.null) →
      Rec.get (buildRecord rd ri ei idx q ts tk lat ea result) "retrieved"
        = some (Val.arr [])) ∧
    (Rec.get result "answer" = none →
      Rec.get (buildRecord rd ri ei idx q ts tk lat ea result) "answer"
        = some (Val.str "")) ∧
    Rec.keys (buildRecord rd ri ei idx q ts tk lat ea result)
      = ["run_date", "run_id", "eval_id", "index", "query", "timestamp",
         "top_k", "latency_s", "answer", "expected_answer", "retrieved",
         "answer_label", "retrieval_label"] := by
  refine ⟨?_, ?_, rfl⟩
  · intro h
    have hv : Rec.getD result "sources" (Val.arr []) = Val.null ∨
        Rec.getD result "sources" (Val.arr []) = Val.arr [] := by
      rcases h with h | h <;> simp [Rec.getD, h]
    rcases hv with hv | hv <;> · simp only [buildRecord]; rw [hv]; rfl
  · intro h
    have hv : Rec.getD result "answer" (Val.str "") = Val.str "" := by
      simp [Rec.getD, h]
    simp only [buildRecord]
    rw [hv]
    rfl

/-- C10 witness: the defaults at a concrete empty `answer()` result —
both `sources` and `answer` absent — give the empty retrieved sequence
and the empty answer string. -/
theorem c10_defaults_witness :
    Rec.get (buildRecord "2026-01-01" "rid" "q1" 0 "Q" "T" 5 Val.null "E" [])
        "retrieved" = some (Val.arr []) ∧
    Rec.get (buildRecord "2026-01-01" "rid" "q1" 0 "Q" "T" 5 Val.null "E" [])
        "answer" = some (Val.str "") :=
  ⟨(c10_missing_fields_defaults "2026-01-01" "rid" "q1" 0 "Q" "T" 5 Val.null
      "E" []).1 (Or.inl rfl),
   (c10_missing_fields_defaults "2026-01-01" "rid" "q1" 0 "Q" "T" 5 Val.null
      "E" []).2.1 rfl⟩

end RagEval
